import Mathlib

/-!
Shallow embedding of `src/CrimeRate.py`: a wide-to-long crime-statistics
pipeline (load, validate, reshape, store in sqlite, grouped-sum aggregation,
chart rendering) together with its orchestrating `main`.

Cells of a loaded table are dynamically typed (pandas): absent (NaN), raw
text, or numeric.  Library-level failures (sqlite I/O, display backend) are
injected through an environment record, since they are outside the Python
code itself; everything else is translated from the source.
-/

namespace CrimeRate

/-- Value held in one cell of a loaded table: absent (NaN), raw text, or a
number. -/
inductive Cell where
  | missing : Cell
  | text : String → Cell
  | num : Int → Cell
deriving DecidableEq, Repr

/-- One row of the wide table: the identity value (column `State/UT`), the
factor value (column `socio-economic factors`), and the remaining cells
accessed by column name. -/
structure WideRow where
  id_val : String
  factor_val : String
  cells : String → Cell

/-- Loaded table: header column names plus data rows (pandas DataFrame). -/
structure DataFrame where
  columns : List String
  rows : List WideRow

/-- Record of the melted table (`pd.melt` output) before numeric filtering:
the `Crime_Count` value is still a raw cell. -/
structure MeltedRecord where
  state : String
  factor : String
  year : String
  value : Cell
deriving DecidableEq, Repr

/-- Record of the long table after the two dropna passes: the count is
numeric. -/
structure LongRecord where
  state : String
  factor : String
  year : String
  count : Int
deriving DecidableEq, Repr

/-- Embedding of `validate_columns` (src line 15): collects every required
column absent from the header and fails with a message listing all of them. -/
def validate_columns (df : DataFrame) (required_columns : List String) :
    Except String Unit :=
  let missing_columns :=
    required_columns.filter (fun col => !(df.columns.contains col))
  if missing_columns.isEmpty then Except.ok ()
  else Except.error
    ("Missing required columns: " ++ String.intercalate ", " missing_columns)

/-- Embedding of the `pd.melt` call (src line 26): one melted record per
(year column, wide row), stacked one block per year column, carrying the
id and factor values through. -/
def melt (df : DataFrame) (year_columns : List String) : List MeltedRecord :=
  year_columns.flatMap (fun y =>
    df.rows.map (fun r =>
      { state := r.id_val, factor := r.factor_val, year := y,
        value := r.cells y }))

/-- Decimal digit value of a character, when it is a digit. -/
def digitVal (c : Char) : Option Nat :=
  if 48 ≤ c.toNat ∧ c.toNat ≤ 57 then some (c.toNat - 48) else none

/-- Accumulating decimal parse of a digit string. -/
def parseNatAux : List Char → Nat → Option Nat
  | [], acc => some acc
  | c :: cs, acc =>
    match digitVal c with
    | some d => parseNatAux cs (acc * 10 + d)
    | none => none

/-- Parse of a non-empty all-digit string as a natural number. -/
def parseNat : List Char → Option Nat
  | [] => none
  | c :: cs => parseNatAux (c :: cs) 0

/-- Numeric parse used to model the pandas numeric coercion: an optional
minus sign followed by decimal digits (crime counts are integral). -/
def parseInt (s : String) : Option Int :=
  match s.data with
  | [] => none
  | c :: cs =>
    if c = Char.ofNat 45 then (parseNat cs).map (fun n => -(n : Int))
    else (parseNat (c :: cs)).map (fun n => (n : Int))

/-- Embedding of `pd.to_numeric(column, errors = coerce)` on one cell:
numbers pass through, parseable text becomes a number, anything else
becomes NaN. -/
def cellToNumeric : Cell → Cell
  | Cell.missing => Cell.missing
  | Cell.num v => Cell.num v
  | Cell.text s =>
    match parseInt s with
    | some v => Cell.num v
    | none => Cell.missing

/-- NA test used by `dropna`: only an absent (NaN) cell is NA. -/
def isNA : Cell → Bool
  | Cell.missing => true
  | _ => false

/-- Embedding of `dropna(subset = [Crime_Count])` (src lines 34 and 36). -/
def dropna (l : List MeltedRecord) : List MeltedRecord :=
  l.filter (fun r => !(isNA r.value))

/-- Embedding of the column-wide `pd.to_numeric` assignment (src line 35). -/
def mapToNumeric (l : List MeltedRecord) : List MeltedRecord :=
  l.map (fun r => { r with value := cellToNumeric r.value })

/-- Embedding of `reshape_data` (src line 23) up to the final table of
cells: melt, drop missing, coerce to numeric, drop coercion failures. -/
def reshape_cells (df : DataFrame) (year_columns : List String) :
    List MeltedRecord :=
  dropna (mapToNumeric (dropna (melt df year_columns)))

/-- Reads a surviving melted record as a typed long record; after the
second dropna every value is numeric, so this drops nothing. -/
def recordOfMelted (r : MeltedRecord) : Option LongRecord :=
  match r.value with
  | Cell.num v =>
    some { state := r.state, factor := r.factor, year := r.year, count := v }
  | _ => none

/-- Embedding of `reshape_data` (src line 23): the long table as typed
records. -/
def reshape_data (df : DataFrame) (year_columns : List String) :
    List LongRecord :=
  (reshape_cells df year_columns).filterMap recordOfMelted

/-- Coercion of one wide cell as the spec words it: a cell contributes a
long record exactly when it is present and coercible to a number. -/
def coerceCell : Cell → Option Int
  | Cell.missing => none
  | Cell.num v => some v
  | Cell.text s => parseInt s

/-- Modelled from the spec (Reshaper policy): one long record per wide
cell that is present and coercible, keyed by (identity, factor, year
label), all other cells dropped.  Used only to compare with
`reshape_data`. -/
def reshapeSpec (df : DataFrame) (year_columns : List String) :
    List LongRecord :=
  year_columns.flatMap (fun y =>
    df.rows.filterMap (fun r =>
      match coerceCell (r.cells y) with
      | some v =>
        some { state := r.id_val, factor := r.factor_val, year := y,
               count := v }
      | none => none))

/-- State of the sqlite database: tables by name. -/
abbrev Database := List (String × List LongRecord)

/-- Embedding of `save_to_sqlite` (src line 41) with
`if_exists = replace`: any prior table of that name is dropped and the
long table written in its place. -/
def save_to_sqlite (db : Database) (table_name : String)
    (df : List LongRecord) : Database :=
  (table_name, df) :: db.filter (fun p => !(p.1 == table_name))

/-- Contents of a named table of the database (empty when absent). -/
def getTable (db : Database) (table_name : String) : List LongRecord :=
  match db.find? (fun p => p.1 == table_name) with
  | some p => p.2
  | none => []

/-- One row of the entity-by-year aggregate (`State, Year, Crime_Count`). -/
structure AggRecord where
  state : String
  year : String
  count : Int
deriving DecidableEq, Repr

/-- One row of the entity-by-factor-by-year aggregate
(`State, Factor, Year, Crime_Count`). -/
structure FactorAggRecord where
  state : String
  factor : String
  year : String
  count : Int
deriving DecidableEq, Repr

/-- Lexicographic strict order on character lists, by code point; this is
the text ordering SQLite applies in `ORDER BY`. -/
def charListLt : List Char → List Char → Bool
  | [], [] => false
  | [], _ :: _ => true
  | _ :: _, [] => false
  | a :: as, b :: bs =>
    if a.toNat < b.toNat then true
    else if b.toNat < a.toNat then false
    else charListLt as bs

/-- Strict text order on strings. -/
def strLt (a b : String) : Bool :=
  charListLt a.data b.data

/-- SQL `ORDER BY "State/UT", Year` on text columns: lexicographic on the
state, then on the year label. -/
def keyLE (a b : String × String) : Prop :=
  (strLt a.1 b.1 || (a.1 == b.1 && (strLt a.2 b.2 || a.2 == b.2))) = true

instance : DecidableRel keyLE := fun a b =>
  inferInstanceAs
    (Decidable ((strLt a.1 b.1 ||
      (a.1 == b.1 && (strLt a.2 b.2 || a.2 == b.2))) = true))

/-- Strict version of `keyLE`: state strictly less, or equal state and
year strictly less. -/
def keyLT (a b : String × String) : Prop :=
  (strLt a.1 b.1 || (a.1 == b.1 && strLt a.2 b.2)) = true

/-- Distinct (state, year) keys of a stored long table, as SQL
`GROUP BY` produces them. -/
def groupKeys (t : List LongRecord) : List (String × String) :=
  (t.map (fun r => (r.state, r.year))).dedup

/-- Value of `SUM(Crime_Count)` for one (state, year) group. -/
def sumCounts (t : List LongRecord) (k : String × String) : Int :=
  ((t.filter (fun r => r.state == k.1 && r.year == k.2)).map
    (fun r => r.count)).sum

/-- Embedding of `fetch_data_by_state` (src line 49): group the stored
table by (state, year), sum the counts, order by state then year. -/
def fetch_data_by_state (t : List LongRecord) : List AggRecord :=
  (List.insertionSort keyLE (groupKeys t)).map
    (fun k => { state := k.1, year := k.2, count := sumCounts t k })

/-- SQL ordering for the three-column grouping of
`fetch_data_by_factors`. -/
def key3LE (a b : String × String × String) : Prop :=
  (strLt a.1 b.1 || (a.1 == b.1 &&
    (strLt a.2.1 b.2.1 || (a.2.1 == b.2.1 &&
      (strLt a.2.2 b.2.2 || a.2.2 == b.2.2))))) = true

instance : DecidableRel key3LE := fun a b =>
  inferInstanceAs
    (Decidable ((strLt a.1 b.1 || (a.1 == b.1 &&
      (strLt a.2.1 b.2.1 || (a.2.1 == b.2.1 &&
        (strLt a.2.2 b.2.2 || a.2.2 == b.2.2))))) = true))

/-- Value of `SUM(Crime_Count)` for one (state, factor, year) group. -/
def sumCounts3 (t : List LongRecord) (k : String × String × String) : Int :=
  ((t.filter (fun r =>
      r.state == k.1 && r.factor == k.2.1 && r.year == k.2.2)).map
    (fun r => r.count)).sum

/-- Embedding of `fetch_data_by_factors` (src line 61): group the stored
table by (state, factor, year), sum the counts, order by the three keys. -/
def fetch_data_by_factors (t : List LongRecord) : List FactorAggRecord :=
  (List.insertionSort key3LE
      ((t.map (fun r => (r.state, r.factor, r.year))).dedup)).map
    (fun k =>
      { state := k.1, factor := k.2.1, year := k.2.2,
        count := sumCounts3 t k })

/-- Column access on a factor-aggregate row by the names the SQL query
aliases produce (`State`, `Factor`, `Year`, `Crime_Count`). -/
def FactorAggRecord.col (r : FactorAggRecord) (name : String) : Cell :=
  if name == "State" then Cell.text r.state
  else if name == "Factor" then Cell.text r.factor
  else if name == "Year" then Cell.text r.year
  else if name == "Crime_Count" then Cell.num r.count
  else Cell.missing

/-- One line series of the state line chart: label, x values, y values. -/
structure LineSeries where
  label : String
  xs : List String
  ys : List Int
deriving DecidableEq, Repr

/-- Embedding of `plot_data_by_state` (src line 74): one line per distinct
state, x the year labels, y the aggregate counts, in data order. -/
def plot_data_by_state (data : List AggRecord) : List LineSeries :=
  ((data.map (fun r => r.state)).dedup).map (fun s =>
    { label := s,
      xs := (data.filter (fun r => r.state == s)).map (fun r => r.year),
      ys := (data.filter (fun r => r.state == s)).map (fun r => r.count) })

/-- Column-role arguments the bar renderer hands to `sns.barplot`:
per-row values for the x, y and hue aesthetics. -/
structure BarPlotCall where
  x : List Cell
  y : List Cell
  hue : List Cell
deriving DecidableEq, Repr

/-- Embedding of `plot_bar_data_by_factors` (src line 100): the source
passes `x = state_column`, `y = factor_column`, `hue = factor_column` to
`sns.barplot`; the `year_column` and `value_column` arguments are unused. -/
def plot_bar_data_by_factors (data : List FactorAggRecord)
    (factor_column state_column year_column value_column : String) :
    BarPlotCall :=
  { x := data.map (fun r => r.col state_column),
    y := data.map (fun r => r.col factor_column),
    hue := data.map (fun r => r.col factor_column) }

/-- Environment of one run: whether the input file exists, its parsed
contents, and injected library-level failures (sqlite write, the two
queries, the two display calls), each `some message` when that call
raises. -/
structure Env where
  file_exists : Bool
  df : DataFrame
  to_sql_error : Option String
  fetch_state_error : Option String
  plot_state_error : Option String
  fetch_factors_error : Option String
  plot_bar_error : Option String

/-- Fixed configuration constants of `main` (src lines 122 to 127). -/
structure Config where
  csv_path : String
  table_name : String
  id_column : String
  factor_column : String
  year_columns : List String

/-- Observable outcome of one run of `main`: the tables produced, which
renderers were invoked, connection lifecycle, the printed failure message
(if any), and the process exit code. -/
structure RunResult where
  long_table : List LongRecord
  state_agg : List AggRecord
  factor_agg : List FactorAggRecord
  line_plotted : Bool
  bar_plotted : Bool
  conn_opened : Bool
  conn_closed : Bool
  printed_error : Option String
  exit_code : Nat
deriving DecidableEq, Repr

/-- The catch-all handler of `main` (src line 151): print one message
naming the error and return normally. -/
def errResult (st : RunResult) (m : String) : RunResult :=
  { st with printed_error := some ("An error occurred: " ++ m) }

/-- The `conn.close()` call at the end of the `try` block (src line 148). -/
def closeStage (st : RunResult) : RunResult :=
  { st with conn_closed := true }

/-- Stages of `main` from `fetch_data_by_factors` on (src lines 144 to
148): fetch the factor aggregate, plot it when non-empty, close the
connection. -/
def barStage (env : Env) (st : RunResult) (table : List LongRecord) :
    RunResult :=
  match env.fetch_factors_error with
  | some m => errResult st m
  | none =>
    let factor_data := fetch_data_by_factors table
    let st2 := { st with factor_agg := factor_data }
    if factor_data.isEmpty then closeStage st2
    else
      match env.plot_bar_error with
      | some m => errResult { st2 with bar_plotted := true } m
      | none => closeStage { st2 with bar_plotted := true }

/-- Stages of `main` from `fetch_data_by_state` on (src lines 139 to
148): fetch the state aggregate, plot it when non-empty, then the factor
stages. -/
def stateStage (env : Env) (st : RunResult) (table : List LongRecord) :
    RunResult :=
  match env.fetch_state_error with
  | some m => errResult st m
  | none =>
    let state_data := fetch_data_by_state table
    let st2 := { st with state_agg := state_data }
    if state_data.isEmpty then barStage env st2 table
    else
      match env.plot_state_error with
      | some m => errResult { st2 with line_plotted := true } m
      | none => barStage env { st2 with line_plotted := true } table

/-- Embedding of `main` (src line 120): the fixed stage sequence inside
one try/except boundary.  Returns the observable outcome and the final
database state (the storage target may outlive the run when it is a named
file, so the initial state is a parameter). -/
def main (env : Env) (cfg : Config) (db0 : Database) :
    RunResult × Database :=
  let base : RunResult :=
    { long_table := [], state_agg := [], factor_agg := [],
      line_plotted := false, bar_plotted := false, conn_opened := false,
      conn_closed := false, printed_error := none, exit_code := 0 }
  if env.file_exists = false then
    (errResult base ("File not found at: " ++ cfg.csv_path), db0)
  else
    match validate_columns env.df
        ([cfg.id_column, cfg.factor_column] ++ cfg.year_columns) with
    | Except.error m => (errResult base m, db0)
    | Except.ok _ =>
      let reshaped := reshape_data env.df cfg.year_columns
      let base2 := { base with long_table := reshaped }
      match env.to_sql_error with
      | some m => (errResult { base2 with conn_opened := true } m, db0)
      | none =>
        let db1 := save_to_sqlite db0 cfg.table_name reshaped
        (stateStage env { base2 with conn_opened := true }
          (getTable db1 cfg.table_name), db1)

/-- Modelled from the spec (Orchestrator failure boundary): the first
stage error of a run, if any — the error `main` is expected to catch and
print.  Used only to compare with `main`. -/
def expectedFailure (env : Env) (cfg : Config) (db0 : Database) :
    Option String :=
  if env.file_exists = false then
    some ("File not found at: " ++ cfg.csv_path)
  else
    match validate_columns env.df
        ([cfg.id_column, cfg.factor_column] ++ cfg.year_columns) with
    | Except.error m => some m
    | Except.ok _ =>
      match env.to_sql_error with
      | some m => some m
      | none =>
        match env.fetch_state_error with
        | some m => some m
        | none =>
          let table := getTable
            (save_to_sqlite db0 cfg.table_name
              (reshape_data env.df cfg.year_columns)) cfg.table_name
          let state_data := fetch_data_by_state table
          match (if state_data.isEmpty then none
                 else env.plot_state_error) with
          | some m => some m
          | none =>
            match env.fetch_factors_error with
            | some m => some m
            | none =>
              if (fetch_data_by_factors table).isEmpty then none
              else env.plot_bar_error

/-! ### Fixtures: the concrete inputs named by the spec's examples -/

/-- Wide row of the Reshaper example: identity `A`, year cells
`2019 = 5`, `2020` empty, `2021 = "x"`. -/
def exampleRow : WideRow :=
  { id_val := "A", factor_val := "F",
    cells := fun y =>
      if y == "2019" then Cell.num 5
      else if y == "2020" then Cell.missing
      else if y == "2021" then Cell.text "x"
      else Cell.missing }

/-- Wide table holding just `exampleRow`. -/
def exampleDF : DataFrame :=
  { columns := ["State/UT", "socio-economic factors", "2019", "2020", "2021"],
    rows := [exampleRow] }

/-- Year columns of the examples. -/
def exampleYears : List String := ["2019", "2020", "2021"]

/-- Long records of the Aggregator example: (A,2019,5), (A,2019,3),
(B,2019,2). -/
def exampleLong : List LongRecord :=
  [ { state := "A", factor := "F", year := "2019", count := 5 },
    { state := "A", factor := "F", year := "2019", count := 3 },
    { state := "B", factor := "F", year := "2019", count := 2 } ]

/-- Long records with pairwise distinct (state, year) keys, for the
round-trip example. -/
def exampleLongUnique : List LongRecord :=
  [ { state := "B", factor := "F", year := "2019", count := 7 },
    { state := "A", factor := "F", year := "2020", count := 4 },
    { state := "A", factor := "F", year := "2019", count := 5 } ]

/-- Configuration constants of `main` (src lines 122 to 127). -/
def exampleConfig : Config :=
  { csv_path := "en.csv", table_name := "crimes_table",
    id_column := "State/UT", factor_column := "socio-economic factors",
    year_columns := ["2019", "2020", "2021"] }

/-- Environment of a fault-free run over `exampleDF`. -/
def exampleEnv : Env :=
  { file_exists := true, df := exampleDF, to_sql_error := none,
    fetch_state_error := none, plot_state_error := none,
    fetch_factors_error := none, plot_bar_error := none }

/-- Environment of a run whose header-only input has zero data rows. -/
def emptyEnv : Env :=
  { file_exists := true,
    df := { columns := exampleDF.columns, rows := [] },
    to_sql_error := none, fetch_state_error := none,
    plot_state_error := none, fetch_factors_error := none,
    plot_bar_error := none }

/-- Environment of a run whose first aggregation query raises a
library-level error after the store was opened. -/
def fetchFailEnv : Env :=
  { exampleEnv with fetch_state_error := some "disk I/O error" }

/-! ### Text order lemmas -/

/-- Inversion of a lexicographic step on cons cells. -/
theorem lex_cons_inv {x y : Nat} {l1 l2 : List Nat}
    (h : List.Lex (fun u v => u < v) (x :: l1) (y :: l2)) :
    x < y ∨ (x = y ∧ List.Lex (fun u v => u < v) l1 l2) := by
  cases h with
  | cons h => exact Or.inr ⟨rfl, h⟩
  | rel h => exact Or.inl h

/-- The strict character-list order agrees with lexicographic `List.Lex`
on code points. -/
theorem charListLt_iff_lex : ∀ as bs : List Char,
    charListLt as bs = true ↔
      List.Lex (· < ·) (as.map Char.toNat) (bs.map Char.toNat) := by
  intro as
  induction as with
  | nil =>
    intro bs
    cases bs with
    | nil =>
      exact iff_of_false (by simp [charListLt]) (List.Lex.not_nil_right _ _)
    | cons b bs => exact iff_of_true rfl List.Lex.nil
  | cons a as ih =>
    intro bs
    cases bs with
    | nil =>
      exact iff_of_false (by simp [charListLt]) (List.Lex.not_nil_right _ _)
    | cons b bs =>
      by_cases h1 : a.toNat < b.toNat
      · simp only [charListLt, if_pos h1, List.map_cons, true_iff]
        exact List.Lex.rel h1
      · by_cases h2 : b.toNat < a.toNat
        · refine iff_of_false (by simp [charListLt, h1, h2]) ?_
          intro hlex
          rcases lex_cons_inv hlex with h | ⟨heq, _⟩
          · exact h1 h
          · exact absurd heq (Nat.ne_of_gt h2)
        · have heq : a.toNat = b.toNat :=
            Nat.le_antisymm (Nat.not_lt.mp h2) (Nat.not_lt.mp h1)
          simp only [charListLt, if_neg h1, if_neg h2, List.map_cons]
          rw [ih bs]
          constructor
          · intro h
            rw [heq]
            exact List.Lex.cons h
          · intro h
            rcases lex_cons_inv h with hr | ⟨_, htl⟩
            · exact absurd hr h1
            · exact htl

/-- Injectivity of the code point of a character. -/
theorem charToNat_injective : Function.Injective Char.toNat :=
  fun _ _ h => Char.ext (UInt32.ext h)

/-- Transitivity of the strict text order. -/
theorem strLt_trans {a b c : String} (h1 : strLt a b = true)
    (h2 : strLt b c = true) : strLt a c = true := by
  rw [strLt, charListLt_iff_lex] at h1 h2 ⊢
  exact trans_of (List.Lex (fun x y => x < y)) h1 h2

/-- Trichotomy of the strict text order. -/
theorem strLt_trichotomy (a b : String) :
    strLt a b = true ∨ a = b ∨ strLt b a = true := by
  rcases (List.Lex.isTrichotomous (fun x y : Nat => x < y)).trichotomous
      (a.data.map Char.toNat) (b.data.map Char.toNat) with h | h | h
  · exact Or.inl ((charListLt_iff_lex a.data b.data).mpr h)
  · refine Or.inr (Or.inl (String.ext ?_))
    exact (List.map_injective_iff.mpr charToNat_injective) h
  · exact Or.inr (Or.inr ((charListLt_iff_lex b.data a.data).mpr h))

/-- Asymmetry of the strict text order. -/
theorem strLt_asymm {a b : String} (h1 : strLt a b = true)
    (h2 : strLt b a = true) : False := by
  rw [strLt, charListLt_iff_lex] at h1 h2
  exact (List.Lex.isAsymm (fun x y : Nat => x < y)).asymm _ _ h1 h2

/-- Unfolding of the key order into propositional form. -/
theorem keyLE_iff (a b : String × String) :
    keyLE a b ↔
      strLt a.1 b.1 = true ∨
        (a.1 = b.1 ∧ (strLt a.2 b.2 = true ∨ a.2 = b.2)) := by
  simp [keyLE, Bool.or_eq_true, Bool.and_eq_true, beq_iff_eq]

/-- Unfolding of the strict key order into propositional form. -/
theorem keyLT_iff (a b : String × String) :
    keyLT a b ↔
      strLt a.1 b.1 = true ∨ (a.1 = b.1 ∧ strLt a.2 b.2 = true) := by
  simp [keyLT, Bool.or_eq_true, Bool.and_eq_true, beq_iff_eq]

instance : IsTotal (String × String) keyLE where
  total a b := by
    rcases strLt_trichotomy a.1 b.1 with h | h | h
    · exact Or.inl ((keyLE_iff a b).mpr (Or.inl h))
    · rcases strLt_trichotomy a.2 b.2 with h2 | h2 | h2
      · exact Or.inl ((keyLE_iff a b).mpr (Or.inr ⟨h, Or.inl h2⟩))
      · exact Or.inl ((keyLE_iff a b).mpr (Or.inr ⟨h, Or.inr h2⟩))
      · exact Or.inr ((keyLE_iff b a).mpr (Or.inr ⟨h.symm, Or.inl h2⟩))
    · exact Or.inr ((keyLE_iff b a).mpr (Or.inl h))

instance : IsTrans (String × String) keyLE where
  trans a b c hab hbc := by
    rw [keyLE_iff] at hab hbc ⊢
    rcases hab with h1 | ⟨e1, h1⟩
    · rcases hbc with h2 | ⟨e2, _⟩
      · exact Or.inl (strLt_trans h1 h2)
      · exact Or.inl (by rw [← e2]; exact h1)
    · rcases hbc with h2 | ⟨e2, h2⟩
      · exact Or.inl (by rw [e1]; exact h2)
      · refine Or.inr ⟨e1.trans e2, ?_⟩
        rcases h1 with h1 | h1
        · rcases h2 with h2 | h2
          · exact Or.inl (strLt_trans h1 h2)
          · exact Or.inl (by rw [← h2]; exact h1)
        · rcases h2 with h2 | h2
          · exact Or.inl (by rw [h1]; exact h2)
          · exact Or.inr (h1.trans h2)

/-- A non-strict key step between distinct keys is strict. -/
theorem keyLT_of_keyLE_of_ne {a b : String × String} (h : keyLE a b)
    (hne : a ≠ b) : keyLT a b := by
  rw [keyLE_iff] at h
  rw [keyLT_iff]
  rcases h with h | ⟨e, h⟩
  · exact Or.inl h
  · rcases h with h | h
    · exact Or.inr ⟨e, h⟩
    · exact absurd (Prod.ext e h) hne

/-! ### Reshaper lemmas -/

/-- Step of `dropna` on an NA head. -/
theorem dropna_cons_na (s f y : String) (c : Cell) (l : List MeltedRecord)
    (h : isNA c = true) :
    dropna (MeltedRecord.mk s f y c :: l) = dropna l := by
  simp [dropna, List.filter_cons, h]

/-- Step of `dropna` on a non-NA head. -/
theorem dropna_cons_not_na (s f y : String) (c : Cell)
    (l : List MeltedRecord) (h : isNA c = false) :
    dropna (MeltedRecord.mk s f y c :: l) =
      MeltedRecord.mk s f y c :: dropna l := by
  simp [dropna, List.filter_cons, h]

/-- Step of the numeric-coercion map. -/
theorem mapToNumeric_cons (s f y : String) (c : Cell)
    (l : List MeltedRecord) :
    mapToNumeric (MeltedRecord.mk s f y c :: l) =
      MeltedRecord.mk s f y (cellToNumeric c) :: mapToNumeric l := rfl

/-- The drop-coerce-drop pipeline keeps exactly the coercible records. -/
theorem reshape_pipeline_eq (l : List MeltedRecord) :
    (dropna (mapToNumeric (dropna l))).filterMap recordOfMelted =
      l.filterMap (fun r =>
        match coerceCell r.value with
        | some v =>
          some { state := r.state, factor := r.factor, year := r.year,
                 count := v }
        | none => none) := by
  induction l with
  | nil => rfl
  | cons r rest ih =>
    rcases r with ⟨s, f, y, v⟩
    cases v with
    | missing =>
      rw [dropna_cons_na s f y Cell.missing _ rfl, ih, List.filterMap_cons]
      simp [coerceCell]
    | text str =>
      rw [dropna_cons_not_na s f y (Cell.text str) _ rfl,
        mapToNumeric_cons]
      cases h : parseInt str with
      | none =>
        rw [show cellToNumeric (Cell.text str) = Cell.missing by
          simp [cellToNumeric, h]]
        rw [dropna_cons_na s f y Cell.missing _ rfl, ih,
          List.filterMap_cons]
        simp [coerceCell, h]
      | some v =>
        rw [show cellToNumeric (Cell.text str) = Cell.num v by
          simp [cellToNumeric, h]]
        rw [dropna_cons_not_na s f y (Cell.num v) _ rfl,
          List.filterMap_cons, List.filterMap_cons, ih]
        simp [coerceCell, recordOfMelted, h]
    | num n =>
      rw [dropna_cons_not_na s f y (Cell.num n) _ rfl, mapToNumeric_cons,
        show cellToNumeric (Cell.num n) = Cell.num n from rfl,
        dropna_cons_not_na s f y (Cell.num n) _ rfl, List.filterMap_cons,
        List.filterMap_cons, ih]
      simp [coerceCell, recordOfMelted]

/-- filterMap distributes over flatMap. -/
theorem filterMap_flatMap_eq {α β γ : Type} (l : List α) (g : α → List β)
    (f : β → Option γ) :
    (l.flatMap g).filterMap f = l.flatMap (fun a => (g a).filterMap f) := by
  induction l with
  | nil => rfl
  | cons a l ih => simp [List.flatMap_cons, List.filterMap_append, ih]

/-- The Reshaper equals its one-record-per-coercible-cell specification. -/
theorem reshape_data_eq_spec (df : DataFrame) (year_columns : List String) :
    reshape_data df year_columns = reshapeSpec df year_columns := by
  unfold reshape_data reshape_cells
  rw [reshape_pipeline_eq]
  unfold melt reshapeSpec
  rw [filterMap_flatMap_eq]
  refine congrArg _ (funext fun y => ?_)
  rw [List.filterMap_map]
  rfl

/-- Coercion of a cell never yields raw text. -/
theorem cellToNumeric_missing_or_num (c : Cell) :
    cellToNumeric c = Cell.missing ∨ ∃ v, cellToNumeric c = Cell.num v := by
  cases c with
  | missing => exact Or.inl rfl
  | num v => exact Or.inr ⟨v, rfl⟩
  | text s =>
    cases h : parseInt s with
    | none => exact Or.inl (by simp [cellToNumeric, h])
    | some v => exact Or.inr ⟨v, by simp [cellToNumeric, h]⟩

/-- Length of the melted table: one record per (year column, wide row). -/
theorem melt_length (df : DataFrame) (year_columns : List String) :
    (melt df year_columns).length = year_columns.length * df.rows.length := by
  unfold melt
  induction year_columns with
  | nil => simp
  | cons y ys ih => simp [List.flatMap_cons, ih, Nat.succ_mul, Nat.add_comm]

/-! ### Claim C1 -/

/-- C1: for every wide table and year-column list, the Reshaper emits
exactly one long record per wide cell that is present and coercible to a
number, keyed by (identity value, factor value, year label) with the
cell's numeric value as count, and emits no record for an empty/missing
or non-numeric cell; in particular, on the wide row with identity `A`
and year cells 2019 = 5, 2020 empty, 2021 = "x", the output is exactly
the one record (A, 2019, 5). -/
theorem C1_reshaper_one_record_per_coercible_cell :
    (∀ (df : DataFrame) (year_columns : List String),
      reshape_data df year_columns = reshapeSpec df year_columns) ∧
    reshape_data exampleDF exampleYears =
      [{ state := "A", factor := "F", year := "2019", count := 5 }] :=
  ⟨reshape_data_eq_spec, by decide⟩

/-! ### Claim C10 -/

/-- C10: every record of a successful reshape has a numeric Crime_Count
value, and the number of long records is at most the number of wide rows
times the number of year columns. -/
theorem C10_reshape_numeric_and_bounded :
    (∀ (df : DataFrame) (year_columns : List String),
      ∀ r ∈ reshape_cells df year_columns, ∃ v, r.value = Cell.num v) ∧
    (∀ (df : DataFrame) (year_columns : List String),
      (reshape_data df year_columns).length ≤
        df.rows.length * year_columns.length) := by
  constructor
  · intro df ycols r hr
    unfold reshape_cells dropna at hr
    have hmem := (List.mem_filter.mp hr).1
    have hflag := (List.mem_filter.mp hr).2
    unfold mapToNumeric at hmem
    rcases List.mem_map.mp hmem with ⟨r0, _, rfl⟩
    rcases cellToNumeric_missing_or_num r0.value with h | ⟨v, h⟩
    · rw [h] at hflag
      simp [isNA] at hflag
    · exact ⟨v, h⟩
  · intro df ycols
    calc (reshape_data df ycols).length
        ≤ (reshape_cells df ycols).length :=
          List.length_filterMap_le _ _
      _ ≤ (mapToNumeric (dropna (melt df ycols))).length :=
          List.length_filter_le _ _
      _ = (dropna (melt df ycols)).length := List.length_map _ _
      _ ≤ (melt df ycols).length := List.length_filter_le _ _
      _ = ycols.length * df.rows.length := melt_length df ycols
      _ = df.rows.length * ycols.length := Nat.mul_comm _ _

/-- Witness for C10 at the example table: the surviving record of
`exampleDF` has a numeric value. -/
theorem C10_reshape_numeric_and_bounded_witness :
    ∃ v, (MeltedRecord.mk "A" "F" "2019" (Cell.num 5)).value = Cell.num v :=
  C10_reshape_numeric_and_bounded.1 exampleDF exampleYears
    (MeltedRecord.mk "A" "F" "2019" (Cell.num 5)) (by decide)

/-! ### Claim C4 -/

/-- C4: the Validator succeeds exactly when every required column is
present, and on failure its message lists every missing column name. -/
theorem C4_validator_reports_all_missing (df : DataFrame)
    (required_columns : List String) :
    (validate_columns df required_columns = Except.ok () ↔
      ∀ c ∈ required_columns, c ∈ df.columns) ∧
    (∀ m, validate_columns df required_columns = Except.error m →
      m = "Missing required columns: " ++ String.intercalate ", "
        (required_columns.filter (fun c => !(df.columns.contains c)))) := by
  constructor
  · constructor
    · intro hok c hc
      by_contra hmem
      have hcf : c ∈ required_columns.filter
          (fun col => !(df.columns.contains col)) :=
        List.mem_filter.mpr ⟨hc, by simp [List.elem_iff, hmem]⟩
      have hne : ¬(required_columns.filter
          (fun col => !(df.columns.contains col))).isEmpty = true := by
        rw [List.isEmpty_iff]
        intro hnil
        rw [hnil] at hcf
        cases hcf
      simp only [validate_columns, if_neg hne] at hok
      exact Except.noConfusion hok
    · intro hall
      simp only [validate_columns]
      have hnil : (required_columns.filter
          (fun col => !(df.columns.contains col))) = [] :=
        List.filter_eq_nil_iff.mpr
          (fun c hc => by simp [List.elem_iff, hall c hc])
      rw [hnil]
      rfl
  · intro m hm
    by_cases h : (required_columns.filter
        (fun col => !(df.columns.contains col))).isEmpty = true
    · simp only [validate_columns, if_pos h] at hm
      exact Except.noConfusion hm
    · simp only [validate_columns, if_neg h] at hm
      exact (Except.error.inj hm).symm

/-- Witness for C4: a table missing two required columns is rejected
with a message naming both. -/
theorem C4_validator_reports_all_missing_witness :
    "Missing required columns: zz, yy" =
      "Missing required columns: " ++ String.intercalate ", "
        (["State/UT", "zz", "2019", "yy"].filter
          (fun c => !(exampleDF.columns.contains c))) :=
  (C4_validator_reports_all_missing exampleDF
    ["State/UT", "zz", "2019", "yy"]).2
    "Missing required columns: zz, yy" (by rfl)

/-! ### Aggregator lemmas -/

/-- Keys of the state aggregate are the sorted distinct keys of the
table. -/
theorem fetch_keys (t : List LongRecord) :
    (fetch_data_by_state t).map (fun a => (a.state, a.year)) =
      List.insertionSort keyLE (groupKeys t) := by
  unfold fetch_data_by_state
  rw [List.map_map]
  have hid : ((fun a : AggRecord => (a.state, a.year)) ∘
      (fun k : String × String =>
        AggRecord.mk k.1 k.2 (sumCounts t k))) = id := by
    funext k
    rfl
  rw [hid, List.map_id]

/-! ### Claim C2 -/

/-- C2: the entity-by-year aggregation has pairwise strictly ascending
(entity, year) keys (hence one row per distinct pair, sorted by entity
then year as text), each row's total is the sum of the Crime_Count of
the records sharing its pair, a pair appears exactly when some record
has it, and the example [(A,2019,5), (A,2019,3), (B,2019,2)] yields
[(A,2019,8), (B,2019,2)]. -/
theorem C2_aggregator_grouped_and_sorted (t : List LongRecord) :
    ((fetch_data_by_state t).map (fun a => (a.state, a.year))).Pairwise
        keyLT ∧
    (∀ a ∈ fetch_data_by_state t,
      a.count = ((t.filter (fun r =>
        r.state == a.state && r.year == a.year)).map
          (fun r => r.count)).sum) ∧
    (∀ s y,
      (s, y) ∈ (fetch_data_by_state t).map (fun a => (a.state, a.year)) ↔
        ∃ r ∈ t, r.state = s ∧ r.year = y) ∧
    fetch_data_by_state exampleLong =
      [ { state := "A", year := "2019", count := 8 },
        { state := "B", year := "2019", count := 2 } ] := by
  refine ⟨?_, ?_, ?_, by decide⟩
  · rw [fetch_keys]
    have hsorted : (List.insertionSort keyLE (groupKeys t)).Pairwise keyLE :=
      List.sorted_insertionSort keyLE (groupKeys t)
    have hnodup : (List.insertionSort keyLE (groupKeys t)).Nodup :=
      ((List.perm_insertionSort keyLE (groupKeys t)).nodup_iff).mpr
        (List.nodup_dedup _)
    exact (hsorted.and hnodup).imp
      (fun h => keyLT_of_keyLE_of_ne h.1 h.2)
  · intro a ha
    rcases List.mem_map.mp ha with ⟨k, _, rfl⟩
    rfl
  · intro s y
    rw [fetch_keys]
    rw [(List.perm_insertionSort keyLE (groupKeys t)).mem_iff]
    unfold groupKeys
    rw [List.mem_dedup, List.mem_map]
    constructor
    · rintro ⟨r, hr, heq⟩
      exact ⟨r, hr, congrArg Prod.fst heq, congrArg Prod.snd heq⟩
    · rintro ⟨r, hr, h1, h2⟩
      exact ⟨r, hr, by rw [h1, h2]⟩

/-- Witness for C2 at the example table: the A row's total is the sum
of the two A records. -/
theorem C2_aggregator_grouped_and_sorted_witness :
    (AggRecord.mk "A" "2019" 8).count =
      ((exampleLong.filter (fun r =>
        r.state == (AggRecord.mk "A" "2019" 8).state &&
          r.year == (AggRecord.mk "A" "2019" 8).year)).map
            (fun r => r.count)).sum :=
  (C2_aggregator_grouped_and_sorted exampleLong).2.1
    (AggRecord.mk "A" "2019" 8) (by decide)

/-! ### Claim C6 -/

/-- Reading back the table just written returns it verbatim. -/
theorem getTable_save (db : Database) (table_name : String)
    (df : List LongRecord) :
    getTable (save_to_sqlite db table_name df) table_name = df := by
  unfold getTable save_to_sqlite
  rw [List.find?_cons_of_pos _ (by simp)]

/-- With pairwise distinct keys, each record is the only member of its
group. -/
theorem filter_key_singleton (t : List LongRecord)
    (h : (t.map (fun r => (r.state, r.year))).Nodup) :
    ∀ r ∈ t,
      t.filter (fun x => x.state == r.state && x.year == r.year) = [r] := by
  induction t with
  | nil => intro r hr; cases hr
  | cons a ts ih =>
    intro r hr
    rw [List.map_cons, List.nodup_cons] at h
    rcases h with ⟨hnotin, hnd⟩
    rcases List.mem_cons.mp hr with rfl | hr
    · rw [List.filter_cons_of_pos (by simp)]
      rw [List.filter_eq_nil_iff.mpr]
      intro x hx hkey
      rw [Bool.and_eq_true, beq_iff_eq, beq_iff_eq] at hkey
      exact hnotin (List.mem_map.mpr ⟨x, hx, by rw [hkey.1, hkey.2]⟩)
    · rw [List.filter_cons_of_neg, ih hnd r hr]
      intro hkey
      rw [Bool.and_eq_true, beq_iff_eq, beq_iff_eq] at hkey
      exact hnotin (List.mem_map.mpr ⟨r, hr, by rw [hkey.1, hkey.2]⟩)

/-- C6: storing a long table in which every (entity, year) key occurs
exactly once and aggregating by entity and year returns exactly the
stored records (as an unordered collection): summing a singleton group
is the identity. -/
theorem C6_singleton_groups_roundtrip (db : Database) (table_name : String)
    (t : List LongRecord)
    (h : (t.map (fun r => (r.state, r.year))).Nodup) :
    ((fetch_data_by_state
        (getTable (save_to_sqlite db table_name t) table_name)).map
      (fun a => (a.state, a.year, a.count))).Perm
        (t.map (fun r => (r.state, r.year, r.count))) := by
  rw [getTable_save]
  unfold fetch_data_by_state groupKeys
  rw [List.dedup_eq_self.mpr h, List.map_map]
  refine ((List.perm_insertionSort keyLE _).map _).trans
    (List.Perm.of_eq ?_)
  rw [List.map_map]
  refine List.map_congr_left (fun r hr => ?_)
  simp only [Function.comp]
  unfold sumCounts
  rw [filter_key_singleton t h r hr]
  simp

/-- Witness for C6 at a three-record table with distinct keys. -/
theorem C6_singleton_groups_roundtrip_witness :
    ((fetch_data_by_state
        (getTable (save_to_sqlite [] "crimes_table" exampleLongUnique)
          "crimes_table")).map
      (fun a => (a.state, a.year, a.count))).Perm
        (exampleLongUnique.map (fun r => (r.state, r.year, r.count))) :=
  C6_singleton_groups_roundtrip [] "crimes_table" exampleLongUnique
    (by decide)

/-! ### Orchestrator stage lemmas -/

/-- Reshaping a table with no data rows yields no long records. -/
theorem reshape_data_empty (df : DataFrame) (year_columns : List String)
    (h : df.rows = []) : reshape_data df year_columns = [] := by
  unfold reshape_data reshape_cells melt dropna mapToNumeric
  rw [h]
  simp

/-- The bar stages leave the earlier fields of the run state unchanged. -/
theorem barStage_fields (env : Env) (st : RunResult)
    (table : List LongRecord) :
    (barStage env st table).line_plotted = st.line_plotted ∧
    (barStage env st table).state_agg = st.state_agg ∧
    (barStage env st table).long_table = st.long_table ∧
    (barStage env st table).conn_opened = st.conn_opened := by
  rcases env with ⟨fe, df, tse, fse, pse, ffe, pbe⟩
  cases ffe with
  | some m => simp [barStage, errResult]
  | none =>
    by_cases he : ((fetch_data_by_factors table).isEmpty = true)
    · simp [barStage, errResult, closeStage, he]
    · cases pbe with
      | some m => simp [barStage, errResult, closeStage, he]
      | none => simp [barStage, errResult, closeStage, he]

/-- The bar renderer runs only on a non-empty factor aggregate. -/
theorem barStage_bar_sound (env : Env) (st : RunResult)
    (table : List LongRecord) (h0 : st.bar_plotted = false) :
    (barStage env st table).bar_plotted = true →
      (barStage env st table).factor_agg ≠ [] := by
  rcases env with ⟨fe, df, tse, fse, pse, ffe, pbe⟩
  cases ffe with
  | some m => simp [barStage, errResult, h0]
  | none =>
    by_cases he : ((fetch_data_by_factors table).isEmpty = true)
    · simp [barStage, errResult, closeStage, he, h0]
    · rw [List.isEmpty_iff] at he
      cases pbe with
      | some m => simp [barStage, errResult, closeStage, List.isEmpty_iff, he]
      | none => simp [barStage, errResult, closeStage, List.isEmpty_iff, he]

/-- The line renderer runs only on a non-empty state aggregate. -/
theorem stateStage_line_sound (env : Env) (st : RunResult)
    (table : List LongRecord) (h0 : st.line_plotted = false) :
    (stateStage env st table).line_plotted = true →
      (stateStage env st table).state_agg ≠ [] := by
  rcases env with ⟨fe, df, tse, fse, pse, ffe, pbe⟩
  by_cases hs : ((fetch_data_by_state table).isEmpty = true) <;>
    by_cases he : ((fetch_data_by_factors table).isEmpty = true) <;>
      cases fse <;> cases pse <;> cases ffe <;> cases pbe <;>
        simp_all [stateStage, barStage, errResult, closeStage,
          List.isEmpty_iff]

/-- Through the state stage, the bar renderer still runs only on a
non-empty factor aggregate. -/
theorem stateStage_bar_sound (env : Env) (st : RunResult)
    (table : List LongRecord) (h0 : st.bar_plotted = false) :
    (stateStage env st table).bar_plotted = true →
      (stateStage env st table).factor_agg ≠ [] := by
  rcases env with ⟨fe, df, tse, fse, pse, ffe, pbe⟩
  by_cases hs : ((fetch_data_by_state table).isEmpty = true) <;>
    by_cases he : ((fetch_data_by_factors table).isEmpty = true) <;>
      cases fse <;> cases pse <;> cases ffe <;> cases pbe <;>
        simp_all [stateStage, barStage, errResult, closeStage,
          List.isEmpty_iff]

/-- A bar stage that reports no error ends with the connection closed. -/
theorem barStage_closed (env : Env) (st : RunResult)
    (table : List LongRecord) :
    (barStage env st table).printed_error = none →
      (barStage env st table).conn_closed = true := by
  rcases env with ⟨fe, df, tse, fse, pse, ffe, pbe⟩
  cases ffe with
  | some m => simp [barStage, errResult]
  | none =>
    by_cases he : ((fetch_data_by_factors table).isEmpty = true)
    · simp [barStage, errResult, closeStage, he]
    · cases pbe with
      | some m => simp [barStage, errResult, closeStage, he]
      | none => simp [barStage, errResult, closeStage, he]

/-- A state stage that reports no error ends with the connection
closed. -/
theorem stateStage_closed (env : Env) (st : RunResult)
    (table : List LongRecord) :
    (stateStage env st table).printed_error = none →
      (stateStage env st table).conn_closed = true := by
  rcases env with ⟨fe, df, tse, fse, pse, ffe, pbe⟩
  by_cases hs : ((fetch_data_by_state table).isEmpty = true) <;>
    by_cases he : ((fetch_data_by_factors table).isEmpty = true) <;>
      cases fse <;> cases pse <;> cases ffe <;> cases pbe <;>
        simp_all [stateStage, barStage, errResult, closeStage,
          List.isEmpty_iff]

/-- Shape of `main` on a run that reaches the aggregation stages: file
present, columns valid, table written. -/
theorem main_success_eq (df : DataFrame) (cfg : Config) (db0 : Database)
    (fse pse ffe pbe : Option String) (u : Unit)
    (hv : validate_columns df
      (cfg.id_column :: cfg.factor_column :: cfg.year_columns) =
        Except.ok u) :
    main (Env.mk true df none fse pse ffe pbe) cfg db0 =
      (stateStage (Env.mk true df none fse pse ffe pbe)
        (RunResult.mk (reshape_data df cfg.year_columns) [] [] false false
          true false none 0)
        (getTable (save_to_sqlite db0 cfg.table_name
          (reshape_data df cfg.year_columns)) cfg.table_name),
       save_to_sqlite db0 cfg.table_name
         (reshape_data df cfg.year_columns)) := by
  simp [main, hv]

/-! ### Claim C3 -/

/-- C3: at the exact argument values `main` uses
(`factor_column = "Factor"`, `state_column = "State"`,
`value_column = "Crime_Count"`), the grouped bar chart hands the factor
value, not the aggregate total, to the y aesthetic of `sns.barplot`:
the claim that y is the aggregate total fails on the code. -/
theorem C3_bar_chart_y_is_factor_not_total :
    (plot_bar_data_by_factors
        [FactorAggRecord.mk "A" "Literacy" "2019" 8]
        "Factor" "State" "Year" "Crime_Count").y =
      [Cell.text "Literacy"] ∧
    (plot_bar_data_by_factors
        [FactorAggRecord.mk "A" "Literacy" "2019" 8]
        "Factor" "State" "Year" "Crime_Count").y ≠ [Cell.num 8] :=
  ⟨rfl, by decide⟩

/-! ### Claim C5 -/

/-- C5: a header-only input (zero data rows) produces an empty long
table, empty aggregate tables, and neither renderer is invoked; in
general each renderer is invoked only on a non-empty aggregate. -/
theorem C5_empty_input_no_render :
    (∀ (env : Env) (cfg : Config) (db0 : Database), env.df.rows = [] →
      (main env cfg db0).1.long_table = [] ∧
      (main env cfg db0).1.state_agg = [] ∧
      (main env cfg db0).1.factor_agg = [] ∧
      (main env cfg db0).1.line_plotted = false ∧
      (main env cfg db0).1.bar_plotted = false) ∧
    (∀ (env : Env) (cfg : Config) (db0 : Database),
      ((main env cfg db0).1.line_plotted = true →
        (main env cfg db0).1.state_agg ≠ []) ∧
      ((main env cfg db0).1.bar_plotted = true →
        (main env cfg db0).1.factor_agg ≠ [])) := by
  constructor
  · intro env cfg db0 h
    rcases env with ⟨fe, df, tse, fse, pse, ffe, pbe⟩
    have hrows : df.rows = [] := h
    have hre : reshape_data df cfg.year_columns = [] :=
      reshape_data_empty df _ hrows
    have hf1 : fetch_data_by_state ([] : List LongRecord) = [] := rfl
    have hf2 : fetch_data_by_factors ([] : List LongRecord) = [] := rfl
    cases fe
    · simp [main, errResult]
    · cases hv : validate_columns df
          (cfg.id_column :: cfg.factor_column :: cfg.year_columns) with
      | error m => simp [main, hv, errResult]
      | ok u =>
        cases tse <;> cases fse <;> cases ffe <;>
          simp [main, hv, hre, getTable_save, stateStage, barStage,
            errResult, closeStage, hf1, hf2]
  · intro env cfg db0
    rcases env with ⟨fe, df, tse, fse, pse, ffe, pbe⟩
    cases fe
    · simp [main, errResult]
    · cases hv : validate_columns df
          (cfg.id_column :: cfg.factor_column :: cfg.year_columns) with
      | error m => simp [main, hv, errResult]
      | ok u =>
        cases tse with
        | some m => simp [main, hv, errResult]
        | none =>
          rw [main_success_eq df cfg db0 fse pse ffe pbe u hv]
          exact ⟨stateStage_line_sound _ _ _ rfl,
            stateStage_bar_sound _ _ _ rfl⟩

/-- Witness for C5 at the header-only environment. -/
theorem C5_empty_input_no_render_witness :
    (main emptyEnv exampleConfig []).1.long_table = [] ∧
    (main emptyEnv exampleConfig []).1.state_agg = [] ∧
    (main emptyEnv exampleConfig []).1.factor_agg = [] ∧
    (main emptyEnv exampleConfig []).1.line_plotted = false ∧
    (main emptyEnv exampleConfig []).1.bar_plotted = false :=
  C5_empty_input_no_render.1 emptyEnv exampleConfig [] rfl

/-! ### Claim C7 -/

/-- Re-running the whole pipeline on the database state the first run
left behind reproduces the first run's observable outcome. -/
theorem main_rerun_eq (env : Env) (cfg : Config) (db0 : Database) :
    (main env cfg (main env cfg db0).2).1 = (main env cfg db0).1 := by
  rcases env with ⟨fe, df, tse, fse, pse, ffe, pbe⟩
  cases fe
  · simp [main]
  · cases hv : validate_columns df
        (cfg.id_column :: cfg.factor_column :: cfg.year_columns) with
    | error m => simp [main, hv]
    | ok u =>
      cases tse with
      | some m => simp [main, hv]
      | none => simp [main, hv, getTable_save]

/-- C7: running the pipeline twice against the same input and table name
yields identical aggregate results on both runs; the replace-on-write
store prevents accumulation across runs. -/
theorem C7_pipeline_idempotent (env : Env) (cfg : Config)
    (db0 : Database) :
    (main env cfg (main env cfg db0).2).1.state_agg =
      (main env cfg db0).1.state_agg ∧
    (main env cfg (main env cfg db0).2).1.factor_agg =
      (main env cfg db0).1.factor_agg :=
  ⟨congrArg RunResult.state_agg (main_rerun_eq env cfg db0),
   congrArg RunResult.factor_agg (main_rerun_eq env cfg db0)⟩

/-! ### Claim C8 -/

/-- C8 counterexample: when the first aggregation query raises after the
store was opened, the run ends with the connection opened but never
closed — `conn.close()` sits inside the `try` block after all stages, so
a failing stage skips it. -/
theorem C8_counterexample_handle_left_open :
    (main fetchFailEnv exampleConfig []).1.conn_opened = true ∧
    (main fetchFailEnv exampleConfig []).1.conn_closed = false ∧
    (main fetchFailEnv exampleConfig []).1.printed_error =
      some "An error occurred: disk I/O error" := by
  refine ⟨by decide, by decide, by decide⟩

/-- C8 (amended): the storage handle is closed when the run completes
all stages without error; a failure after the store opens leaves it
open. -/
theorem C8_store_closed_only_on_success (env : Env) (cfg : Config)
    (db0 : Database) :
    (main env cfg db0).1.printed_error = none →
      (main env cfg db0).1.conn_closed = true := by
  rcases env with ⟨fe, df, tse, fse, pse, ffe, pbe⟩
  cases fe
  · simp [main, errResult]
  · cases hv : validate_columns df
        (cfg.id_column :: cfg.factor_column :: cfg.year_columns) with
    | error m => simp [main, hv, errResult]
    | ok u =>
      cases tse with
      | some m => simp [main, hv, errResult]
      | none =>
        rw [main_success_eq df cfg db0 fse pse ffe pbe u hv]
        exact stateStage_closed _ _ _

/-- Witness for the amended C8: the fault-free run closes the handle. -/
theorem C8_store_closed_only_on_success_witness :
    (main exampleEnv exampleConfig []).1.conn_closed = true :=
  C8_store_closed_only_on_success exampleEnv exampleConfig [] (by decide)

/-! ### Claim C9 -/

/-- C9: every stage error is caught at the single failure boundary of
`main`: the run always ends with exit code 0, and the printed message is
exactly "An error occurred: " followed by the first failing stage's
error (and nothing is printed on success). -/
theorem C9_failure_boundary_catches_all (env : Env) (cfg : Config)
    (db0 : Database) :
    (main env cfg db0).1.exit_code = 0 ∧
    (main env cfg db0).1.printed_error =
      (expectedFailure env cfg db0).map
        (fun m => "An error occurred: " ++ m) := by
  rcases env with ⟨fe, df, tse, fse, pse, ffe, pbe⟩
  cases fe
  · simp [main, expectedFailure, errResult]
  · cases hv : validate_columns df
        (cfg.id_column :: cfg.factor_column :: cfg.year_columns) with
    | error m => simp [main, expectedFailure, hv, errResult]
    | ok u =>
      cases tse with
      | some m => simp [main, expectedFailure, hv, errResult]
      | none =>
        by_cases hs : ((fetch_data_by_state
            (getTable (save_to_sqlite db0 cfg.table_name
              (reshape_data df cfg.year_columns))
              cfg.table_name)).isEmpty = true) <;>
          by_cases he : ((fetch_data_by_factors
            (getTable (save_to_sqlite db0 cfg.table_name
              (reshape_data df cfg.year_columns))
              cfg.table_name)).isEmpty = true) <;>
          cases fse <;> cases pse <;> cases ffe <;> cases pbe <;>
            simp_all [main, expectedFailure, stateStage, barStage,
              errResult, closeStage]

end CrimeRate
